import Mathlib

/-!
# Verification of the DocSigner annotation store and export transform

A shallow embedding, in Lean 4, of the core logic of `src/app/Signer.tsx`:
the annotation store (the `elements` state and its mutation helpers), the
element creators, the file-upload handler, and the PDF export routine
`downloadPDF` with its per-element coordinate transform.

Numbers are modelled as `ℚ` (the source's arithmetic on coordinates and
sizes is exact decimal arithmetic on the inputs considered here), page
numbers as `ℤ` (JS numbers used as indices), ids as `String`.
-/

/-- The union `type ElementType = "text" | "signature" | "date"`. -/
inductive ElementType where
  | text
  | signature
  | date
deriving DecidableEq, Repr

/-- Interface `FormElement` from Signer.tsx: id, type, position, value,
optional width/height, page. -/
structure FormElement where
  id : String
  type : ElementType
  x : ℚ
  y : ℚ
  value : String
  width : Option ℚ
  height : Option ℚ
  page : ℤ
deriving DecidableEq, Repr

/-- JavaScript's `a || b` on a possibly-missing number: `undefined` and `0`
are falsy, so `el.width || 120` yields 120 when `width` is absent or zero. -/
def jsOr (o : Option ℚ) (d : ℚ) : ℚ :=
  match o with
  | some w => if w = 0 then d else w
  | none => d

/-- Constant `VIEWPORT_WIDTH = 600` — fixed width of the editor canvas. -/
def VIEWPORT_WIDTH : ℚ := 600

/-- Helper `updateElementPosition`: map over the list, replacing `x`/`y` of every
element whose id matches. -/
def updateElementPosition (elements : List FormElement) (id : String) (x y : ℚ) :
    List FormElement :=
  elements.map (fun el => if el.id = id then { el with x := x, y := y } else el)

/-- Helper `updateElementValue`: map over the list, replacing `value` of every
element whose id matches (the source has no guard on `el.type`). -/
def updateElementValue (elements : List FormElement) (id : String) (value : String) :
    List FormElement :=
  elements.map (fun el => if el.id = id then { el with value := value } else el)

/-- Helper `updateElementSize`: map over the list, replacing `width`/`height` of
every element whose id matches (no guard on `el.type`, no clamping). -/
def updateElementSize (elements : List FormElement) (id : String) (width height : ℚ) :
    List FormElement :=
  elements.map (fun el =>
    if el.id = id then { el with width := some width, height := some height } else el)

/-- Helper `removeElement`: filter out the matching id. -/
def removeElement (elements : List FormElement) (id : String) : List FormElement :=
  elements.filter (fun el => el.id ≠ id)

/-- Creator `addText`: append a text element with id `Date.now().toString()`
(`now` is the millisecond clock reading at the time of the call). -/
def addText (elements : List FormElement) (currentPage : ℤ) (now : ℕ) :
    List FormElement :=
  elements ++ [{ id := Nat.repr now, type := .text, x := 50, y := 50,
                 value := "Type here...", width := none, height := none,
                 page := currentPage }]

/-- Creator `addDate`: append a date element with id `Date.now().toString()`. -/
def addDate (elements : List FormElement) (currentPage : ℤ) (now : ℕ)
    (dateStr : String) : List FormElement :=
  elements ++ [{ id := Nat.repr now, type := .date, x := 50, y := 100,
                 value := dateStr, width := none, height := none,
                 page := currentPage }]

/-- Creator `addSignature`: append a signature element with id `Date.now().toString()`,
default size 120×60. -/
def addSignature (elements : List FormElement) (currentPage : ℤ) (now : ℕ)
    (dataUrl : String) : List FormElement :=
  elements ++ [{ id := Nat.repr now, type := .signature, x := 50, y := 150,
                 value := dataUrl, width := some 120, height := some 60,
                 page := currentPage }]

/-- The shrink button of `DraggableElement`:
`updateSize(el.id, (el.width || 120) * 0.9, (el.height || 60) * 0.9)`,
reading `el` from the current store. `factor` is 0.9 for the Minus button
and 1.1 for the Plus button. -/
def resizeStep (factor : ℚ) (elements : List FormElement) (id : String) :
    List FormElement :=
  match elements.find? (fun el => el.id = id) with
  | none => elements
  | some el =>
      updateElementSize elements id (jsOr el.width 120 * factor)
        (jsOr el.height 60 * factor)

/-- One press of the Minus ("Smaller") button. -/
def shrinkStep (elements : List FormElement) (id : String) : List FormElement :=
  resizeStep (9 / 10) elements id

/-- One press of the Plus ("Larger") button. -/
def growStep (elements : List FormElement) (id : String) : List FormElement :=
  resizeStep (11 / 10) elements id

/-! ## The export transform (`downloadPDF`) -/

/-- A page of the loaded PDF document: `page.getSize()` gives width/height. -/
structure PDFPage where
  width : ℚ
  height : ℚ
deriving DecidableEq, Repr

/-- The result of `PDFDocument.load`: its ordered list of pages. -/
structure PDFDoc where
  pages : List PDFPage
deriving DecidableEq, Repr

/-- A drawing command issued against a page of the output document
(`page.drawText` / `page.drawImage`). -/
inductive DrawOp where
  | drawText (pageIndex : ℕ) (value : String) (x y size : ℚ)
  | drawImage (pageIndex : ℕ) (png : String) (x y width height : ℚ)
deriving DecidableEq, Repr

/-- The pdf-lib operations the export routine calls, modelled by their
contracts: `PDFDocument.load` may fail on invalid bytes, `embedPng` may
fail on an undecodable payload. -/
structure PDFLib where
  load : List ℕ → Option PDFDoc
  embedPng : String → Option String

/-- Quantity `elementHeight` from the export loop:
`el.type === 'signature' ? (el.height || 0) : 14`. -/
def elementHeight (el : FormElement) : ℚ :=
  match el.type with
  | .signature => jsOr el.height 0
  | _ => 14

/-- The body of the export loop for one element: skip when
`pageIndex < 0 || pageIndex >= pages.length` (`continue`), otherwise compute
`scaleFactor = pageWidth / VIEWPORT_WIDTH`, `pdfX`, `pdfY` and emit the
draw command; a failing `embedPng` aborts (surfaces as the caught error). -/
def compositeElement (doc : PDFDoc) (embedPng : String → Option String)
    (el : FormElement) : Except String (List DrawOp) :=
  let pageIndex : ℤ := el.page - 1
  if pageIndex < 0 ∨ (doc.pages.length : ℤ) ≤ pageIndex then
    .ok []
  else
    let page := doc.pages.getD pageIndex.toNat ⟨0, 0⟩
    let scaleFactor := page.width / VIEWPORT_WIDTH
    let pdfX := el.x * scaleFactor
    let pdfY := page.height - el.y * scaleFactor - elementHeight el * scaleFactor
    match el.type with
    | .text | .date =>
        .ok [.drawText pageIndex.toNat el.value pdfX pdfY (14 * scaleFactor)]
    | .signature =>
        match embedPng el.value with
        | some png =>
            .ok [.drawImage pageIndex.toNat png pdfX pdfY
                  (jsOr el.width 120 * scaleFactor)
                  (jsOr el.height 60 * scaleFactor)]
        | none => .error "embedPng failed"

/-- The `for (const el of elements)` loop: elements in store order, the
first failure aborts the whole export (the thrown error propagates out of
the loop to the surrounding `catch`). -/
def exportOps (doc : PDFDoc) (embedPng : String → Option String) :
    List FormElement → Except String (List DrawOp)
  | [] => .ok []
  | el :: rest =>
      match compositeElement doc embedPng el with
      | .error e => .error e
      | .ok ops =>
          match exportOps doc embedPng rest with
          | .error e => .error e
          | .ok more => .ok (ops ++ more)

/-- A user-visible alert message. -/
def exportFailedMsg : String := "Failed to export PDF. Please check the console."

/-- The component state relevant to upload and export. -/
structure JsFile where
  type : String
  bytes : List ℕ
deriving DecidableEq, Repr

/-- The `useState` cells of the `Signer` component that the modelled
handlers read or write. -/
structure SignerState where
  pdfFile : Option JsFile
  pdfBytes : Option (List ℕ)
  currentPage : ℤ
  elements : List FormElement
deriving DecidableEq, Repr

/-- Routine `downloadPDF`: early-return without pdfBytes; otherwise load, composite
every element, and on success emit the blob; every thrown error is caught
once and reported by a single alert, with no state mutation. Returns the
state after the call, the saved file's draw commands (when any file was
saved), and the alerts raised. -/
def downloadPDF (lib : PDFLib) (s : SignerState) :
    SignerState × Option (List DrawOp) × List String :=
  match s.pdfBytes with
  | none => (s, none, [])
  | some bytes =>
      match lib.load bytes with
      | none => (s, none, [exportFailedMsg])
      | some doc =>
          match exportOps doc lib.embedPng s.elements with
          | .error _ => (s, none, [exportFailedMsg])
          | .ok ops => (s, some ops, [])

/-- Handler `handleFileUpload`: reject non-PDF mime types with an alert and no state
change; otherwise store the file and its bytes, reset `elements` to `[]`
and `currentPage` to 1. Returns the new state and the alerts raised. -/
def handleFileUpload (s : SignerState) (file : Option JsFile) :
    SignerState × List String :=
  match file with
  | none => (s, [])
  | some f =>
      if f.type ≠ "application/pdf" then
        (s, ["Please convert DOC/DOCX to PDF before uploading to ensure perfect layout."])
      else
        ({ s with pdfFile := some f, pdfBytes := some f.bytes,
                  elements := [], currentPage := 1 }, [])

/-! ## Concrete elements and documents used in witnesses and counterexamples -/

/-- A signature element as `addSignature` creates it. -/
def sigDemo : FormElement :=
  { id := "s1", type := .signature, x := 50, y := 150, value := "data:image/png;base64,AAAA",
    width := some 120, height := some 60, page := 1 }

/-- A text element as `addText` creates it. -/
def textDemo : FormElement :=
  { id := "t1", type := .text, x := 50, y := 50, value := "Type here...",
    width := none, height := none, page := 1 }

/-- A one-page US-Letter document (612×792). -/
def docLetter : PDFDoc := { pages := [{ width := 612, height := 792 }] }

/-- A three-page US-Letter document. -/
def docThree : PDFDoc :=
  { pages := [{ width := 612, height := 792 }, { width := 612, height := 792 },
              { width := 612, height := 792 }] }

/-! ## Helper lemmas -/

/-- Mapping an id-guarded update over a list with no matching id is the
identity. -/
lemma map_ite_id_of_no_match (els : List FormElement) (id : String)
    (f : FormElement → FormElement) (h : ∀ el ∈ els, el.id ≠ id) :
    els.map (fun el => if el.id = id then f el else el) = els := by
  induction els with
  | nil => rfl
  | cons a t ih =>
      have ha : a.id ≠ id := h a (List.mem_cons_self a t)
      simp only [List.map_cons, if_neg ha, List.cons.injEq, true_and]
      exact ih (fun el hel => h el (List.mem_cons_of_mem a hel))

/-! ## C2 — setContent -/

/-- C2 (counterexample): `updateElementValue` is **not** a no-op on a
signature element: at this concrete input the signature's `value` (its
image payload) is overwritten, so the claimed kind guard does not exist. -/
theorem setContent_overwrites_signature :
    updateElementValue [sigDemo] "s1" "overwritten" =
      [{ sigDemo with value := "overwritten" }] ∧
    updateElementValue [sigDemo] "s1" "overwritten" ≠ [sigDemo] ∧
    sigDemo.type = .signature ∧ sigDemo.value ≠ "overwritten" := by
  refine ⟨by simp [updateElementValue, sigDemo], by decide, rfl, by decide⟩

/-- C2 (amended): `setContent(id, value)` replaces the `value` field of every
element whose id matches, regardless of kind — signatures included — and is
a no-op exactly when no element has that id. -/
theorem setContent_replaces_value_any_kind (els : List FormElement)
    (id value : String) :
    (∀ i : ℕ, (updateElementValue els id value)[i]? =
      (els[i]?).map (fun el => if el.id = id then { el with value := value } else el)) ∧
    ((∀ el ∈ els, el.id ≠ id) → updateElementValue els id value = els) := by
  constructor
  · intro i
    exact List.getElem?_map _ _ _
  · intro h
    exact map_ite_id_of_no_match els id _ h

/-- C2 (witness): the amended theorem evaluated at concrete inputs — an
unknown id leaves a store untouched. -/
theorem setContent_replaces_value_any_kind_witness :
    updateElementValue [sigDemo] "nope" "v" = [sigDemo] :=
  (setContent_replaces_value_any_kind [sigDemo] "nope" "v").2 (by decide)

/-! ## C4 — resize -/

/-- C4 (counterexample): `updateElementSize` is **not** restricted to
signature elements and does **not** clamp: at this concrete input it stores
width −5 and height 0 on a *text* element. -/
theorem resize_stores_negative_on_text :
    updateElementSize [textDemo] "t1" (-5) 0 =
      [{ textDemo with width := some (-5), height := some 0 }] ∧
    updateElementSize [textDemo] "t1" (-5) 0 ≠ [textDemo] ∧
    textDemo.type = .text ∧ ((-5 : ℚ) < 0) := by
  refine ⟨by simp [updateElementSize, textDemo], by decide, rfl, by norm_num⟩

/-- C4 (amended): `resize(id, width, height)` stores exactly the given
width/height (unclamped, zero or negative included) on every element whose
id matches, regardless of kind, and is a no-op exactly when no element has
that id. -/
theorem resize_replaces_size_any_kind (els : List FormElement) (id : String)
    (width height : ℚ) :
    (∀ i : ℕ, (updateElementSize els id width height)[i]? =
      (els[i]?).map (fun el =>
        if el.id = id then { el with width := some width, height := some height }
        else el)) ∧
    ((∀ el ∈ els, el.id ≠ id) → updateElementSize els id width height = els) := by
  constructor
  · intro i
    exact List.getElem?_map _ _ _
  · intro h
    exact map_ite_id_of_no_match els id _ h

/-- C4 (witness): the amended theorem evaluated at concrete inputs — an
unknown id leaves a store untouched. -/
theorem resize_replaces_size_any_kind_witness :
    updateElementSize [textDemo] "nope" 10 20 = [textDemo] :=
  (resize_replaces_size_any_kind [textDemo] "nope" 10 20).2 (by decide)

/-! ## C9 — move -/

/-- C9: `move(id, x, y)` replaces the position of every element whose id
matches with `(x, y)` and leaves its other fields and every other element
unchanged; when no element has the id the store is returned unchanged (the
operation is total — it cannot throw). -/
theorem move_replaces_position (els : List FormElement) (id : String) (x y : ℚ) :
    (∀ i : ℕ, (updateElementPosition els id x y)[i]? =
      (els[i]?).map (fun el => if el.id = id then { el with x := x, y := y } else el)) ∧
    ((∀ el ∈ els, el.id ≠ id) → updateElementPosition els id x y = els) := by
  constructor
  · intro i
    exact List.getElem?_map _ _ _
  · intro h
    exact map_ite_id_of_no_match els id _ h

/-- C9 (witness): moving by an absent id is a no-op on a concrete store,
and moving by the present id rewrites exactly the position. -/
theorem move_replaces_position_witness :
    updateElementPosition [sigDemo, textDemo] "ghost" 7 8 = [sigDemo, textDemo] ∧
    (updateElementPosition [sigDemo, textDemo] "t1" 7 8)[1]? =
      some { textDemo with x := 7, y := 8 } := by
  constructor
  · exact (move_replaces_position [sigDemo, textDemo] "ghost" 7 8).2 (by decide)
  · have h := (move_replaces_position [sigDemo, textDemo] "t1" 7 8).1 1
    simpa [textDemo] using h

/-! ## C10 — frame effects of the three mutation helpers -/

/-- C10: each mutation helper preserves the element count, the order, and
the `id`, `type`, `page` fields of every element; beyond that, move touches
only `x`/`y`, setContent only `value`, and resize only `width`/`height`, and
an element whose id does not match is returned entirely unchanged. -/
theorem mutations_preserve_frame (els : List FormElement) (id : String)
    (x y : ℚ) (v : String) (w h : ℚ) :
    (updateElementPosition els id x y).map
        (fun el => (el.id, el.type, el.page, el.value, el.width, el.height)) =
      els.map (fun el => (el.id, el.type, el.page, el.value, el.width, el.height)) ∧
    (updateElementValue els id v).map
        (fun el => (el.id, el.type, el.page, el.x, el.y, el.width, el.height)) =
      els.map (fun el => (el.id, el.type, el.page, el.x, el.y, el.width, el.height)) ∧
    (updateElementSize els id w h).map
        (fun el => (el.id, el.type, el.page, el.x, el.y, el.value)) =
      els.map (fun el => (el.id, el.type, el.page, el.x, el.y, el.value)) ∧
    (updateElementPosition els id x y).length = els.length ∧
    (updateElementValue els id v).length = els.length ∧
    (updateElementSize els id w h).length = els.length ∧
    (∀ i : ℕ, ∀ el, els[i]? = some el → el.id ≠ id →
      (updateElementPosition els id x y)[i]? = some el ∧
      (updateElementValue els id v)[i]? = some el ∧
      (updateElementSize els id w h)[i]? = some el) := by
  refine ⟨?_, ?_, ?_, ?_, ?_, ?_, ?_⟩
  · rw [updateElementPosition, List.map_map]
    refine List.map_congr_left (fun el _ => ?_)
    by_cases hel : el.id = id <;> simp [hel]
  · rw [updateElementValue, List.map_map]
    refine List.map_congr_left (fun el _ => ?_)
    by_cases hel : el.id = id <;> simp [hel]
  · rw [updateElementSize, List.map_map]
    refine List.map_congr_left (fun el _ => ?_)
    by_cases hel : el.id = id <;> simp [hel]
  · simp [updateElementPosition]
  · simp [updateElementValue]
  · simp [updateElementSize]
  · intro i el hi hne
    refine ⟨?_, ?_, ?_⟩
    · rw [updateElementPosition, List.getElem?_map, hi]
      simp [hne]
    · rw [updateElementValue, List.getElem?_map, hi]
      simp [hne]
    · rw [updateElementSize, List.getElem?_map, hi]
      simp [hne]

/-- C10 (witness): at a concrete two-element store, an element whose id
does not match the mutated one survives all three operations unchanged. -/
theorem mutations_preserve_frame_witness :
    (updateElementPosition [sigDemo, textDemo] "t1" 7 8)[0]? = some sigDemo ∧
    (updateElementValue [sigDemo, textDemo] "t1" "v")[0]? = some sigDemo ∧
    (updateElementSize [sigDemo, textDemo] "t1" 5 6)[0]? = some sigDemo :=
  (mutations_preserve_frame [sigDemo, textDemo] "t1" 7 8 "v" 5 6).2.2.2.2.2.2
    0 sigDemo rfl (by decide)

/-! ## C1 — the coordinate transform -/

/-- Modelled from the spec's transform formulas (§4.2):
`scaleFactor = pageWidth / editorWidth` with `editorWidth = 600`. -/
def specScaleFactor (pageWidth : ℚ) : ℚ := pageWidth / 600

/-- Modelled from the spec: `pdfX = editorX * scaleFactor`. -/
def specPdfX (editorX pageWidth : ℚ) : ℚ := editorX * specScaleFactor pageWidth

/-- Modelled from the spec:
`pdfY = pageHeight - editorY * scaleFactor - renderedHeight * scaleFactor`,
where `renderedHeight` is 14 for text/date and the element's own height
field for signatures. -/
def specPdfY (editorY pageWidth pageHeight renderedHeight : ℚ) : ℚ :=
  pageHeight - editorY * specScaleFactor pageWidth -
    renderedHeight * specScaleFactor pageWidth


/-- C1: for an element whose page lies inside the exported document, the
export loop places it at exactly the spec's `pdfX`/`pdfY` computed from the
target page's true width and height (with rendered height 14 for text/date
and the element's own height field for a signature), and the concrete
US-Letter scenario evaluates to `scaleFactor = 1.02`, `pdfX = 51`,
`pdfY = 726.72`. -/
theorem export_coordinate_transform (doc : PDFDoc)
    (embedPng : String → Option String) (el : FormElement)
    (h1 : 1 ≤ el.page) (h2 : el.page ≤ (doc.pages.length : ℤ)) :
    ((el.type = .text ∨ el.type = .date) →
      compositeElement doc embedPng el =
        .ok [.drawText (el.page - 1).toNat el.value
          (specPdfX el.x (doc.pages.getD (el.page - 1).toNat ⟨0, 0⟩).width)
          (specPdfY el.y (doc.pages.getD (el.page - 1).toNat ⟨0, 0⟩).width
            (doc.pages.getD (el.page - 1).toNat ⟨0, 0⟩).height 14)
          (14 * specScaleFactor (doc.pages.getD (el.page - 1).toNat ⟨0, 0⟩).width)]) ∧
    (∀ hgt img, el.type = .signature → el.height = some hgt →
      embedPng el.value = some img →
      compositeElement doc embedPng el =
        .ok [.drawImage (el.page - 1).toNat img
          (specPdfX el.x (doc.pages.getD (el.page - 1).toNat ⟨0, 0⟩).width)
          (specPdfY el.y (doc.pages.getD (el.page - 1).toNat ⟨0, 0⟩).width
            (doc.pages.getD (el.page - 1).toNat ⟨0, 0⟩).height hgt)
          (jsOr el.width 120 * specScaleFactor
            (doc.pages.getD (el.page - 1).toNat ⟨0, 0⟩).width)
          (jsOr el.height 60 * specScaleFactor
            (doc.pages.getD (el.page - 1).toNat ⟨0, 0⟩).width)]) ∧
    specScaleFactor 612 = 1.02 ∧
    specPdfX 50 612 = 51 ∧
    specPdfY 50 612 792 14 = 726.72 ∧
    compositeElement docLetter embedPng textDemo =
      .ok [.drawText 0 "Type here..." 51 726.72 14.28] := by
  have hcond : ¬(el.page - 1 < 0 ∨ (doc.pages.length : ℤ) ≤ el.page - 1) := by omega
  refine ⟨?_, ?_, by norm_num [specScaleFactor],
    by norm_num [specPdfX, specScaleFactor],
    by norm_num [specPdfY, specScaleFactor], ?_⟩
  · rintro (ht | ht) <;>
      · simp only [compositeElement]
        rw [if_neg hcond]
        simp [ht, elementHeight, specPdfX, specPdfY, specScaleFactor, VIEWPORT_WIDTH]
  · rintro hgt img hsig hh hpng
    simp only [compositeElement]
    rw [if_neg hcond]
    rcases eq_or_ne hgt 0 with h0 | h0 <;>
      simp [hsig, hh, hpng, elementHeight, jsOr, h0, specPdfX, specPdfY,
        specScaleFactor, VIEWPORT_WIDTH]
  · simp [compositeElement, elementHeight, jsOr, VIEWPORT_WIDTH, textDemo, docLetter]
    norm_num

/-- C1 (witness): the transform theorem applied to the spec's US-Letter
scenario. -/
theorem export_coordinate_transform_witness :
    compositeElement docLetter (fun _ => none) textDemo =
      .ok [.drawText 0 "Type here..." 51 726.72 14.28] :=
  (export_coordinate_transform docLetter (fun _ => none) textDemo
    (by decide) (by decide)).2.2.2.2.2

/-! ## C5 — out-of-range pages are skipped -/

/-- An element whose page is below 1 or above the page count hits the
`continue` branch: no draw command, no error. -/
lemma compositeElement_skip (doc : PDFDoc) (embedPng : String → Option String)
    (el : FormElement) (h : el.page < 1 ∨ (doc.pages.length : ℤ) < el.page) :
    compositeElement doc embedPng el = .ok [] := by
  simp only [compositeElement]
  rw [if_pos (by omega)]

/-- Dropping every out-of-range element from the store does not change the
export's outcome: skipped elements contribute nothing and raise nothing. -/
lemma exportOps_filter_inRange (doc : PDFDoc) (embedPng : String → Option String)
    (els : List FormElement) :
    exportOps doc embedPng els =
      exportOps doc embedPng
        (els.filter (fun e => decide (1 ≤ e.page ∧ e.page ≤ (doc.pages.length : ℤ)))) := by
  induction els with
  | nil => rfl
  | cons a t ih =>
      by_cases ha : 1 ≤ a.page ∧ a.page ≤ (doc.pages.length : ℤ)
      · rw [List.filter_cons_of_pos (by simpa using ha)]
        simp only [exportOps]
        rw [ih]
      · rw [List.filter_cons_of_neg (by simpa using ha)]
        have hskip : compositeElement doc embedPng a = .ok [] :=
          compositeElement_skip doc embedPng a (by omega)
        simp only [exportOps, hskip]
        rw [← ih]
        cases exportOps doc embedPng t <;> simp

/-- C5: an element whose `page` is outside `[1, pageCount]` is skipped
without an error, and the export of any store equals the export of its
in-range elements alone — the remaining elements are still composited. -/
theorem export_skips_out_of_range (doc : PDFDoc)
    (embedPng : String → Option String) (el : FormElement)
    (els : List FormElement)
    (h : el.page < 1 ∨ (doc.pages.length : ℤ) < el.page) :
    compositeElement doc embedPng el = .ok [] ∧
    exportOps doc embedPng els =
      exportOps doc embedPng
        (els.filter (fun e => decide (1 ≤ e.page ∧ e.page ≤ (doc.pages.length : ℤ)))) :=
  ⟨compositeElement_skip doc embedPng el h,
   exportOps_filter_inRange doc embedPng els⟩

/-- A stale text element pointing at page 5. -/
def stalePage5 : FormElement :=
  { id := "p5", type := .text, x := 10, y := 10, value := "stale",
    width := none, height := none, page := 5 }

/-- C5 (witness): the spec scenario — `page = 5` against a 3-page document
is skipped and the export of the remaining in-range element still
succeeds with its draw command. -/
theorem export_skips_out_of_range_witness :
    (compositeElement docThree (fun _ => none) stalePage5 = .ok [] ∧
      exportOps docThree (fun _ => none) [stalePage5, textDemo] =
        exportOps docThree (fun _ => none)
          ([stalePage5, textDemo].filter
            (fun e => decide (1 ≤ e.page ∧ e.page ≤ (docThree.pages.length : ℤ))))) ∧
    exportOps docThree (fun _ => none) [stalePage5, textDemo] =
      .ok [.drawText 0 "Type here..." 51 726.72 14.28] := by
  constructor
  · exact export_skips_out_of_range docThree (fun _ => none) stalePage5
      [stalePage5, textDemo] (by decide)
  · simp [exportOps, compositeElement, elementHeight, jsOr, VIEWPORT_WIDTH,
      stalePage5, textDemo, docThree]
    norm_num

/-! ## C6 — export failure is atomic -/

/-- C6: when the source bytes fail to load or some element fails to
composite, `downloadPDF` saves nothing, raises exactly one alert, and
returns the state unchanged (the annotation store and the loaded bytes are
untouched). -/
theorem export_failure_atomic (lib : PDFLib) (s : SignerState) (bytes : List ℕ)
    (hb : s.pdfBytes = some bytes)
    (hfail : lib.load bytes = none ∨
      ∃ doc e, lib.load bytes = some doc ∧
        exportOps doc lib.embedPng s.elements = .error e) :
    downloadPDF lib s = (s, none, [exportFailedMsg]) := by
  rcases hfail with hl | ⟨doc, e, hl, he⟩
  · simp [downloadPDF, hb, hl]
  · simp [downloadPDF, hb, hl, he]

/-- C6 (witness): a library that rejects the bytes — the call returns the
state unchanged with one alert and no file. -/
theorem export_failure_atomic_witness :
    downloadPDF { load := fun _ => none, embedPng := fun _ => none }
      { pdfFile := none, pdfBytes := some [37], currentPage := 1,
        elements := [] } =
      ({ pdfFile := none, pdfBytes := some [37], currentPage := 1,
         elements := [] }, none, [exportFailedMsg]) :=
  export_failure_atomic _ _ [37] rfl (Or.inl rfl)

/-! ## C7 — loading a document resets the store -/

/-- C7: a successful upload of a PDF file resets `elements` to the empty
list (no previous annotation survives), stores the new file and bytes, and
resets the current page to 1, raising no alert. -/
theorem load_resets_store (s : SignerState) (f : JsFile)
    (h : f.type = "application/pdf") :
    (handleFileUpload s (some f)).1.elements = [] ∧
    (handleFileUpload s (some f)).1 =
      { s with pdfFile := some f, pdfBytes := some f.bytes,
               elements := [], currentPage := 1 } ∧
    (handleFileUpload s (some f)).2 = [] := by
  simp [handleFileUpload, h]

/-- C7 (witness): uploading over a store holding annotations with pages
that would also be valid in the new document still empties the store. -/
theorem load_resets_store_witness :
    (handleFileUpload
      { pdfFile := none, pdfBytes := some [1, 2], currentPage := 3,
        elements := [sigDemo, textDemo] }
      (some { type := "application/pdf", bytes := [9] })).1.elements = [] :=
  (load_resets_store _ _ rfl).1

/-! ## C3 — id generation -/

/-- C3: ids come from `Date.now().toString()`, so two create operations in
the same millisecond produce the *same* id. Concretely, `addText` followed
by `addDate` with the clock at 1700000000000 both times yields two distinct
annotations carrying one identical id — ids are not unique. -/
theorem duplicate_id_same_millisecond :
    (addDate (addText [] 1 1700000000000) 1 1700000000000 "1/1/2026").map
        FormElement.id = ["1700000000000", "1700000000000"] ∧
    (addDate (addText [] 1 1700000000000) 1 1700000000000 "1/1/2026").map
        FormElement.type = [.text, .date] := by
  constructor <;> rfl

/-! ## C8 — resize steps compound multiplicatively -/

/-- Applying `jsOr` to a present nonzero value returns the value itself. -/
lemma jsOr_some_of_ne (a d : ℚ) (ha : a ≠ 0) : jsOr (some a) d = a := by
  simp [jsOr, ha]

/-- N successive presses of one resize button. -/
def iterateResize (factor : ℚ) (id : String) : ℕ → List FormElement → List FormElement
  | 0, els => els
  | n + 1, els => resizeStep factor (iterateResize factor id n els) id

/-- The expected shape of the store after N resize steps: the matching
element's size is the starting size scaled by `factor ^ N`, everything else
untouched. -/
def scaledUpdate (id : String) (w h factor : ℚ) (n : ℕ) (el : FormElement) :
    FormElement :=
  if el.id = id then
    { el with width := some (w * factor ^ n), height := some (h * factor ^ n) }
  else el

lemma scaledUpdate_id (id : String) (w h factor : ℚ) (n : ℕ) (el : FormElement) :
    (scaledUpdate id w h factor n el).id = el.id := by
  by_cases hid : el.id = id <;> simp [scaledUpdate, hid]

/-- Searching by id with `find?` commutes with mapping an id-preserving function. -/
lemma find?_id_map (els : List FormElement) (id : String)
    (f : FormElement → FormElement) (hf : ∀ el, (f el).id = el.id) :
    (els.map f).find? (fun el => el.id = id) =
      (els.find? (fun el => el.id = id)).map f := by
  have hpred : ((fun el : FormElement => decide (el.id = id)) ∘ f) =
      (fun el : FormElement => decide (el.id = id)) := by
    funext el
    simp [Function.comp, hf]
  rw [List.find?_map, hpred]

/-- Closed form of N resize steps when every element carrying the id starts
with size `(w, h)`, both nonzero, and at least one such element exists. -/
lemma iterateResize_closed_form (factor : ℚ) (id : String)
    (els : List FormElement) (w h : ℚ) (hw : w ≠ 0) (hh : h ≠ 0)
    (hf : factor ≠ 0) (hex : ∃ el ∈ els, el.id = id)
    (hall : ∀ el ∈ els, el.id = id → el.width = some w ∧ el.height = some h)
    (N : ℕ) :
    iterateResize factor id N els = els.map (scaledUpdate id w h factor N) := by
  induction N with
  | zero =>
      have hself : ∀ el ∈ els, scaledUpdate id w h factor 0 el = el := by
        intro el hel
        by_cases hid : el.id = id
        · obtain ⟨hw₀, hh₀⟩ := hall el hel hid
          cases el
          simp_all [scaledUpdate]
        · simp [scaledUpdate, hid]
      simp only [iterateResize]
      rw [List.map_congr_left hself]
      simp
  | succ n ihN =>
      simp only [iterateResize]
      rw [ihN]
      obtain ⟨el', hmem', hid'⟩ := hex
      have hsome : (els.find? (fun el => el.id = id)).isSome :=
        List.find?_isSome.2 ⟨el', hmem', by simp [hid']⟩
      obtain ⟨el₀, hfind⟩ := Option.isSome_iff_exists.mp hsome
      have hmem₀ : el₀ ∈ els := List.mem_of_find?_eq_some hfind
      have hid₀ : el₀.id = id := by simpa using List.find?_some hfind
      obtain ⟨hw₀, hh₀⟩ := hall el₀ hmem₀ hid₀
      have hfind' : (els.map (scaledUpdate id w h factor n)).find?
          (fun el => el.id = id) = some (scaledUpdate id w h factor n el₀) := by
        rw [find?_id_map els id _ (scaledUpdate_id id w h factor n), hfind,
          Option.map_some']
      simp only [resizeStep, hfind']
      have hfw : (scaledUpdate id w h factor n el₀).width = some (w * factor ^ n) := by
        simp [scaledUpdate, hid₀]
      have hfh : (scaledUpdate id w h factor n el₀).height = some (h * factor ^ n) := by
        simp [scaledUpdate, hid₀]
      rw [hfw, hfh, jsOr_some_of_ne _ _ (mul_ne_zero hw (pow_ne_zero _ hf)),
        jsOr_some_of_ne _ _ (mul_ne_zero hh (pow_ne_zero _ hf)),
        updateElementSize, List.map_map]
      refine List.map_congr_left (fun el _ => ?_)
      by_cases hid : el.id = id
      · simp [Function.comp, scaledUpdate, hid, pow_succ, mul_assoc]
      · simp [Function.comp, scaledUpdate, hid]

/-- C8: starting from a signature element of size `(w, h)` (positive, as the
creation defaults 120×60 are), N presses of the shrink button scale its
width and height by `(9/10) ^ N` and N presses of the grow button by
`(11/10) ^ N` — the steps compound multiplicatively — while every other
element is untouched. -/
theorem resize_compounds_multiplicatively (els : List FormElement) (id : String)
    (w h : ℚ) (N : ℕ) (hw : 0 < w) (hh : 0 < h)
    (hex : ∃ el ∈ els, el.id = id)
    (hall : ∀ el ∈ els, el.id = id →
      el.type = .signature ∧ el.width = some w ∧ el.height = some h) :
    iterateResize (9 / 10) id N els = els.map (scaledUpdate id w h (9 / 10) N) ∧
    iterateResize (11 / 10) id N els = els.map (scaledUpdate id w h (11 / 10) N) :=
  ⟨iterateResize_closed_form (9 / 10) id els w h (ne_of_gt hw) (ne_of_gt hh)
      (by norm_num) hex
      (fun el hm hi => ⟨(hall el hm hi).2.1, (hall el hm hi).2.2⟩) N,
   iterateResize_closed_form (11 / 10) id els w h (ne_of_gt hw) (ne_of_gt hh)
      (by norm_num) hex
      (fun el hm hi => ⟨(hall el hm hi).2.1, (hall el hm hi).2.2⟩) N⟩

/-- C8 (witness): two presses of the shrink button on the default 120×60
signature yield width 120 × 0.9 × 0.9 = 97.2 (not 120 × 0.8 = 96). -/
theorem resize_compounds_multiplicatively_witness :
    iterateResize (9 / 10) "s1" 2 [sigDemo] =
      [sigDemo].map (scaledUpdate "s1" 120 60 (9 / 10) 2) ∧
    (120 : ℚ) * (9 / 10) ^ 2 = 97.2 ∧ (120 : ℚ) * (9 / 10) ^ 2 ≠ 96 := by
  refine ⟨?_, by norm_num, by norm_num⟩
  exact (resize_compounds_multiplicatively [sigDemo] "s1" 120 60 2
    (by norm_num) (by norm_num) ⟨sigDemo, by simp, rfl⟩ (by decide)).1
